import Mathlib

/-!
Shallow embedding of `main.go` of TurnOffTPLINKIpv6Firewall: a small local
HTTP utility that loads a JSON config, serves one form, forwards a JSON
command to a router, and supervises a single browser child process.

External effects (file reads, the JSON parser outcome, the outbound HTTP
call, process spawning) are modelled as explicit oracle values consumed by
the translated functions; everything the Go code itself decides (defaults,
validation, string building, state updates, event ordering) is translated
directly from the source.
-/

namespace TPLink

/-- The Go `Config` struct (the process-wide Settings record). -/
structure Config where
  routerIP : String
  stok : String
  ipv6FirewallEnable : String
  dmzDestIP : String
  dmzDestIP6 : String
  serverPort : String
  dmzEnable : String
deriving Repr, DecidableEq

/-- The zero value of the Go `Config` struct: all fields are empty strings,
which is the state of the package-level `config` variable at process start. -/
def initConfig : Config :=
  ⟨"", "", "", "", "", "", ""⟩

/-- The fields a parsed `config.json` object may carry: each JSON key is
optional, and `json.Unmarshal` leaves absent fields untouched. -/
structure ConfigJson where
  router_ip : Option String
  stok : Option String
  ipv6_firewall_enable : Option String
  dmz_dest_ip : Option String
  dmz_dest_ip6 : Option String
  server_port : Option String
  dmz_enable : Option String
deriving Repr, DecidableEq

/-- `json.Unmarshal(bytes, &config)` on a well-formed object: fields present
in the JSON overwrite the struct, absent fields keep their prior values. -/
def unmarshalInto (c : Config) (j : ConfigJson) : Config :=
  { routerIP := j.router_ip.getD c.routerIP
    stok := j.stok.getD c.stok
    ipv6FirewallEnable := j.ipv6_firewall_enable.getD c.ipv6FirewallEnable
    dmzDestIP := j.dmz_dest_ip.getD c.dmzDestIP
    dmzDestIP6 := j.dmz_dest_ip6.getD c.dmzDestIP6
    serverPort := j.server_port.getD c.serverPort
    dmzEnable := j.dmz_enable.getD c.dmzEnable }

/-- Oracle for the file-system and JSON effects of `readConfig`: `os.Open`
failing, `io.ReadAll` failing, or the three outcomes of `json.Unmarshal`:
it validates the JSON text up front and mutates nothing on a syntax error;
on well-formed JSON with a wrong-typed field it decodes the well-typed
fields into the struct and still returns the type error; `parsed` is the
error-free decode. -/
inductive FileRead where
  | openError (e : String)
  | readError (e : String)
  | syntaxError (e : String)
  | typeError (j : ConfigJson) (e : String)
  | parsed (j : ConfigJson)
deriving Repr, DecidableEq

/-- Go `readConfig`: on open/read failure it sets only the two defaults and
returns the error; otherwise it pre-applies the same two defaults and then
unmarshals. A syntax error leaves the defaults untouched; a type error
retains the well-typed decoded fields; both return the unmarshal error.
The returned `Option String` is the Go `error` result (`none` = `nil`). -/
def readConfig (c : Config) : FileRead → Config × Option String
  | .openError e => ({ c with serverPort := "8080", dmzEnable := "1" }, some e)
  | .readError e => ({ c with serverPort := "8080", dmzEnable := "1" }, some e)
  | .syntaxError e => ({ c with serverPort := "8080", dmzEnable := "1" }, some e)
  | .typeError j e =>
      (unmarshalInto { c with serverPort := "8080", dmzEnable := "1" } j, some e)
  | .parsed j => (unmarshalInto { c with serverPort := "8080", dmzEnable := "1" } j, none)

/-- The fields `json.Unmarshal` decoded into the struct, when the JSON text
was well-formed: present on the error-free path and on the type-error path. -/
def decodedFields : FileRead → Option ConfigJson
  | .typeError j _ => some j
  | .parsed j => some j
  | _ => none

/-- Minimal JSON value AST for the request body built by `sendRequest`
(only strings and objects occur; object fields are kept in source order). -/
inductive Json where
  | str (s : String)
  | obj (fields : List (String × Json))

/-- The nested command object `sendRequest` builds from the current config:
firewall.dmz carries enable/dest_ip/wan_port("0")/dest_ip6, firewall
.ipv6_firewall carries enable, and method is "set". -/
def buildRequestBody (c : Config) : Json :=
  .obj
    [("firewall", .obj
        [("dmz", .obj
            [("enable", .str c.dmzEnable),
             ("dest_ip", .str c.dmzDestIP),
             ("wan_port", .str "0"),
             ("dest_ip6", .str c.dmzDestIP6)]),
         ("ipv6_firewall", .obj
            [("enable", .str c.ipv6FirewallEnable)])]),
     ("method", .str "set")]

/-- The router management URL `sendRequest` POSTs to. -/
def requestURL (c : Config) : String :=
  "http://" ++ c.routerIP ++ "/stok=" ++ c.stok ++ "/ds"

/-- One outbound HTTP request as issued by `http.Post`. -/
structure HttpRequest where
  url : String
  contentType : String
  body : Json

/-- Oracle for the network effects of `sendRequest`: `http.Post` failing at
transport, `io.ReadAll` failing on the response body, or a response with a
status code and a fully read body. `json.Marshal` of the fixed map of
strings built above cannot fail, so no serialization-error case exists. -/
inductive NetOutcome where
  | postError (e : String)
  | readError (e : String)
  | response (status : Nat) (body : String)
deriving Repr, DecidableEq

/-- Result of `sendRequest`: the Go `(bool, string)` pair plus the trace of
request attempts actually issued (the code calls `http.Post` exactly once). -/
structure SendResult where
  ok : Bool
  message : String
  requests : List HttpRequest

/-- Go `sendRequest`: builds the body and URL, issues one POST with content
type application/json, converts transport/read errors into prefixed failure
strings, and reports ok exactly when the status code is 200, returning the
full body regardless of status. -/
def sendRequest (c : Config) : NetOutcome → SendResult
  | .postError e =>
      ⟨false, "请求错误: " ++ e, [⟨requestURL c, "application/json", buildRequestBody c⟩]⟩
  | .readError e =>
      ⟨false, "读取响应错误: " ++ e, [⟨requestURL c, "application/json", buildRequestBody c⟩]⟩
  | .response status body =>
      ⟨status == 200, body, [⟨requestURL c, "application/json", buildRequestBody c⟩]⟩

/-- Whether a network outcome makes `sendRequest` report success. -/
def sendOk : NetOutcome → Bool
  | .response status _ => status == 200
  | _ => false

/-- The six form fields read by the POST branch of `handler`. -/
structure Form where
  router_ip : String
  stok : String
  ipv6_firewall_enable : String
  dmz_enable : String
  dmz_dest_ip : String
  dmz_dest_ip6 : String
deriving Repr, DecidableEq

/-- Go `strings.ToLower`, restricted to the per-character case mapping. -/
def goToLower (s : String) : String :=
  ⟨s.data.map Char.toLower⟩

/-- Observable outcome of one POST request handled by `handler`: the updated
config, the plain-text chunks written into the response body in order, the
redirect issued by `http.Redirect` (target and status code) if any, and the
outbound requests made through `sendRequest`. -/
structure PostResult where
  config : Config
  bodyWrites : List String
  redirect : Option (String × Nat)
  requests : List HttpRequest

/-- The POST branch of Go `handler`: stores router_ip and stok verbatim,
lowercases the IPv6-firewall field (the on/off switch is the identity on the
lowercased value), accepts dmz_enable only if it is "0" or "1" and otherwise
keeps the prior value and writes a warning naming it, stores the two DMZ
destination addresses verbatim, then invokes `sendRequest` and either
redirects to /success with 303 or writes an operation-failed message. -/
def handlePost (c : Config) (f : Form) (net : NetOutcome) : PostResult :=
  let c1 := { c with routerIP := f.router_ip, stok := f.stok }
  let ipv6 := goToLower f.ipv6_firewall_enable
  let c2 := { c1 with ipv6FirewallEnable :=
    if ipv6 = "on" then "on" else if ipv6 = "off" then "off" else ipv6 }
  let dmz := f.dmz_enable
  let c3 := if dmz = "0" || dmz = "1" then { c2 with dmzEnable := dmz } else c2
  let warn : List String :=
    if dmz = "0" || dmz = "1" then []
    else ["DMZ启用状态必须为0或1，已保持原有值: " ++ c2.dmzEnable ++ "<br>"]
  let c4 := { c3 with dmzDestIP := f.dmz_dest_ip, dmzDestIP6 := f.dmz_dest_ip6 }
  let sr := sendRequest c4 net
  if sr.ok then
    ⟨c4, warn, some ("/success", 303), sr.requests⟩
  else
    ⟨c4, warn ++ ["操作失败: " ++ sr.message], none, sr.requests⟩

/-- The GET branch of Go `handler`: the HTML form template with the current
config substituted for the template fields (round-trip display). -/
def renderForm (c : Config) : String :=
  "<html>\n\t\t<body>\n\t\t\t<form method=\"post\">\n\t\t\t\t<label>Router IP:</label><br>\n\t\t\t\t<input type=\"text\" name=\"router_ip\" placeholder=\"例如: 192.168.0.1\" value=\""
    ++ c.routerIP
    ++ "\"><br>\n\t\t\t\t\n\t\t\t\t<label>Stok:</label><br>\n\t\t\t\t<input type=\"text\" name=\"stok\" placeholder=\"路由器认证令牌\" value=\""
    ++ c.stok
    ++ "\"><br>\n\t\t\t\t\n\t\t\t\t<label>IPv6 Firewall Enable (on=开启,off=关闭):</label><br>\n\t\t\t\t<input type=\"text\" name=\"ipv6_firewall_enable\" placeholder=\"on或off\" value=\""
    ++ c.ipv6FirewallEnable
    ++ "\"><br>\n\t\t\t\t\n\t\t\t\t<label>DMZ 启用状态 (1=启用,0=关闭):</label><br>\n\t\t\t\t<input type=\"text\" name=\"dmz_enable\" placeholder=\"0或1\" value=\""
    ++ c.dmzEnable
    ++ "\"><br>\n\t\t\t\t\n\t\t\t\t<label>DMZ Destination IP (IPv4):</label><br>\n\t\t\t\t<input type=\"text\" name=\"dmz_dest_ip\" placeholder=\"例如: 192.168.0.102\" value=\""
    ++ c.dmzDestIP
    ++ "\"><br>\n\t\t\t\t\n\t\t\t\t<label>DMZ Destination IPv6:</label><br>\n\t\t\t\t<input type=\"text\" name=\"dmz_dest_ip6\" placeholder=\"例如: 240e:370:xx\" value=\""
    ++ c.dmzDestIP6
    ++ "\"><br>\n\t\t\t\t\n\t\t\t\t<input type=\"submit\" value=\"提交\">\n\t\t\t\t</form>\n\t\t\t</body>\n\t\t</html>"

/-- The Process Supervisor state: the package-level `childProcess` pointer
(at most one tracked pid by construction) and the Windows `processGroup` id. -/
structure SupState where
  childProcess : Option Nat
  processGroup : Nat
deriving Repr, DecidableEq

/-- Number of tracked child-process handles in a supervisor state. -/
def trackedCount (s : SupState) : Nat :=
  match s.childProcess with
  | some _ => 1
  | none => 0

/-- Observable teardown / launch events, in the order the code performs them. -/
inductive SupEvent where
  | signalInterrupt (pid : Nat)
  | signalKill (pid : Nat)
  | terminateGroup (gid : Nat)
  | spawn (pid : Nat)
deriving Repr, DecidableEq

/-- Go `cleanupProcesses`: if a process with positive pid is tracked, send it
an interrupt, wait, send kill, on Windows additionally terminate the recorded
process group if positive, then clear both fields; otherwise do nothing. -/
def cleanupProcesses (isWindows : Bool) (s : SupState) : SupState × List SupEvent :=
  match s.childProcess with
  | some pid =>
      if 0 < pid then
        (⟨none, 0⟩,
          [.signalInterrupt pid, .signalKill pid]
            ++ (if isWindows && 0 < s.processGroup then [.terminateGroup s.processGroup] else []))
      else (s, [])
  | none => (s, [])

/-- Oracle for `cmd.Start()`: either the command fails to start, or it starts
and yields the new child pid. -/
inductive StartOutcome where
  | startError (e : String)
  | started (pid : Nat)
deriving Repr, DecidableEq

/-- Go `safeExecCommand` (under the mutex): first tears down any existing
child, then starts the command; on start failure it returns the error with
nothing tracked anew, on success it records the process (and on Windows the
process group id). The Bool result is whether an error was returned. -/
def safeExecCommand (isWindows : Bool) (s : SupState) (o : StartOutcome) :
    SupState × List SupEvent × Bool :=
  let cleaned := cleanupProcesses isWindows s
  match o with
  | .startError _ => (cleaned.1, cleaned.2, true)
  | .started pid =>
      (⟨some pid, if isWindows then pid else cleaned.1.processGroup⟩,
        cleaned.2 ++ [.spawn pid], false)

/-- The watcher goroutine of `safeExecCommand` after `cmd.Wait()` returns:
clears the tracked handle and group id (under the mutex). -/
def watcherExit (_s : SupState) : SupState :=
  ⟨none, 0⟩

/-- A supervisor-level operation, for reasoning about operation sequences. -/
inductive SupOp where
  | launch (isWindows : Bool) (o : StartOutcome)
  | teardown (isWindows : Bool)
  | reaped
deriving Repr, DecidableEq

/-- State transition of the supervisor under one operation. -/
def supStep (s : SupState) : SupOp → SupState
  | .launch isWindows o => (safeExecCommand isWindows s o).1
  | .teardown isWindows => (cleanupProcesses isWindows s).1
  | .reaped => watcherExit s

/-- Fold a sequence of supervisor operations from a starting state. -/
def supRun (s : SupState) : List SupOp → SupState
  | [] => s
  | op :: rest => supRun (supStep s op) rest

/-- Observable steps of `main` on the Enter-key shutdown path. -/
inductive MainEvent where
  | closeSignal
  | sleepMs (n : Nat)
  | runCleanup
  | exitProcess (code : Nat)
deriving Repr, DecidableEq

/-- The shutdown path of Go `main` after the console line is read:
`close(serverQuit)`, `time.Sleep(500ms)`, `os.Exit(0)`. `os.Exit`
terminates the program immediately and deferred functions are not run
(Go os package contract), so the `defer cleanup()` registered at the top
of `main` never executes on this path and no `runCleanup` event occurs. -/
def mainShutdownEvents : List MainEvent :=
  [.closeSignal, .sleepMs 500, .exitProcess 0]

/-- Effect of the `main` shutdown path on the supervisor state, paired with
the exit code: the state is unchanged because `os.Exit(0)` fires before any
deferred cleanup can run. -/
def mainShutdown (s : SupState) : SupState × Nat :=
  (s, 0)

/-- The listen address `main` binds, from the configured server port. -/
def serverAddr (c : Config) : String :=
  ":" ++ c.serverPort

/-- The DMZ-flag invariant claimed by the spec: the stored flag is "0" or "1". -/
def dmzValid (c : Config) : Prop :=
  c.dmzEnable = "0" ∨ c.dmzEnable = "1"

instance (c : Config) : Decidable (dmzValid c) := by
  unfold dmzValid
  infer_instance

/-- Fold a sequence of POST submissions (form data plus network outcome)
through `handlePost`, returning the final config. -/
def applySubmits (c : Config) : List (Form × NetOutcome) → Config
  | [] => c
  | fn :: rest => applySubmits (handlePost c fn.1 fn.2).config rest

theorem ipv6Switch_eq_self (s : String) :
    (if s = "on" then "on" else if s = "off" then "off" else s) = s := by
  split_ifs with h1 h2
  · exact h1.symm
  · exact h2.symm
  · rfl

theorem handlePost_config (c : Config) (f : Form) (net : NetOutcome) :
    (handlePost c f net).config =
      ⟨f.router_ip, f.stok, goToLower f.ipv6_firewall_enable, f.dmz_dest_ip,
       f.dmz_dest_ip6, c.serverPort,
       if f.dmz_enable = "0" || f.dmz_enable = "1" then f.dmz_enable else c.dmzEnable⟩ := by
  simp only [handlePost]
  rw [ipv6Switch_eq_self]
  split <;> split <;> rfl

theorem sendRequest_ok_eq_sendOk (c : Config) (net : NetOutcome) :
    (sendRequest c net).ok = sendOk net := by
  cases net <;> rfl

/-- Claim C4: for every Settings value, the Router Client builds exactly the
nested JSON object with firewall.dmz (enable, dest_ip, wan_port "0",
dest_ip6), firewall.ipv6_firewall (enable) and method "set" from the
corresponding Settings fields, and POSTs it with content type
application/json to http://router_ip/stok=stok/ds, whatever the network
outcome is. -/
theorem c4_request_shape (c : Config) (net : NetOutcome) :
    (sendRequest c net).requests =
      [⟨"http://" ++ c.routerIP ++ "/stok=" ++ c.stok ++ "/ds", "application/json",
        Json.obj
          [("firewall", Json.obj
              [("dmz", Json.obj
                  [("enable", Json.str c.dmzEnable),
                   ("dest_ip", Json.str c.dmzDestIP),
                   ("wan_port", Json.str "0"),
                   ("dest_ip6", Json.str c.dmzDestIP6)]),
               ("ipv6_firewall", Json.obj
                  [("enable", Json.str c.ipv6FirewallEnable)])]),
           ("method", Json.str "set")]⟩] := by
  cases net <;> rfl

/-- Claim C5: the Router Client reports ok exactly when a status-200 response
was received and read; any received-and-read response returns its full body
regardless of status; transport and body-read errors yield ok=false with a
prefixed human-readable failure string; and exactly one request attempt is
made in every case. (Serialization of the fixed map of strings cannot fail,
so no serialization-error case arises.) -/
theorem c5_sendRequest_contract (c : Config) (net : NetOutcome) :
    ((sendRequest c net).ok = true ↔ ∃ b, net = .response 200 b) ∧
    (∀ s b, net = .response s b → (sendRequest c net).message = b) ∧
    (∀ e, net = .postError e →
      (sendRequest c net).ok = false ∧ (sendRequest c net).message = "请求错误: " ++ e) ∧
    (∀ e, net = .readError e →
      (sendRequest c net).ok = false ∧ (sendRequest c net).message = "读取响应错误: " ++ e) ∧
    (sendRequest c net).requests.length = 1 := by
  cases net <;> simp [sendRequest]

theorem c5_sendRequest_contract_witness :
    (sendRequest initConfig (.response 200 "body text")).ok = true ∧
    (sendRequest initConfig (.response 200 "body text")).message = "body text" ∧
    (sendRequest initConfig (.postError "dial refused")).ok = false ∧
    (sendRequest initConfig (.response 500 "err body")).message = "err body" :=
  ⟨(c5_sendRequest_contract initConfig (.response 200 "body text")).1.mpr ⟨"body text", rfl⟩,
   (c5_sendRequest_contract initConfig (.response 200 "body text")).2.1 200 "body text" rfl,
   ((c5_sendRequest_contract initConfig (.postError "dial refused")).2.2.1 "dial refused" rfl).1,
   (c5_sendRequest_contract initConfig (.response 500 "err body")).2.1 500 "err body" rfl⟩

/-- Claim C7: for every POST submission, the stored IPv6 firewall flag is the
lowercase of the submitted value (values other than on/off are stored
without rejection), and submitting "ON" yields exactly the same handler
outcome as submitting "on". -/
theorem c7_ipv6_lowercase (c : Config) (f : Form) (net : NetOutcome) :
    (handlePost c f net).config.ipv6FirewallEnable = goToLower f.ipv6_firewall_enable ∧
    handlePost c { f with ipv6_firewall_enable := "ON" } net
      = handlePost c { f with ipv6_firewall_enable := "on" } net := by
  constructor
  · rw [handlePost_config]
  · have h : goToLower "ON" = goToLower "on" := by decide
    simp only [handlePost, h]

theorem handlePost_requests_length (c : Config) (f : Form) (net : NetOutcome) :
    (handlePost c f net).requests.length = 1 := by
  cases net with
  | postError e => simp [handlePost, sendRequest]
  | readError e => simp [handlePost, sendRequest]
  | response s b =>
      by_cases h : (s == 200) = true <;> simp [handlePost, sendRequest, h]

theorem handlePost_redirect (c : Config) (f : Form) (net : NetOutcome) :
    (handlePost c f net).redirect = if sendOk net then some ("/success", 303) else none := by
  simp only [handlePost, sendRequest_ok_eq_sendOk]
  cases hs : sendOk net <;> simp [hs]

/-- Claim C2: a POST whose dmz_enable value is neither "0" nor "1" leaves
Settings.DmzEnable unchanged, writes into the response body a warning line
naming the retained value, and still invokes the Router Client (exactly one
outbound request attempt is made). -/
theorem c2_invalid_dmz_retained (c : Config) (f : Form) (net : NetOutcome)
    (h0 : f.dmz_enable ≠ "0") (h1 : f.dmz_enable ≠ "1") :
    (handlePost c f net).config.dmzEnable = c.dmzEnable ∧
    ("DMZ启用状态必须为0或1，已保持原有值: " ++ c.dmzEnable ++ "<br>")
      ∈ (handlePost c f net).bodyWrites ∧
    (handlePost c f net).requests.length = 1 := by
  have hd : (f.dmz_enable = "0" || f.dmz_enable = "1") = false := by
    simp [h0, h1]
  refine ⟨?_, ?_, handlePost_requests_length c f net⟩
  · rw [handlePost_config]
    simp [hd]
  · simp only [handlePost, hd]
    cases net with
    | postError e => simp [sendRequest]
    | readError e => simp [sendRequest]
    | response s b =>
        by_cases h200 : (s == 200) = true <;> simp [sendRequest, h200]

theorem c2_invalid_dmz_retained_witness :
    (handlePost ⟨"10.0.0.1", "tok", "on", "", "", "8080", "1"⟩
        ⟨"192.168.0.1", "abc", "on", "5", "", ""⟩ (.postError "refused")).config.dmzEnable
      = "1" ∧
    ("DMZ启用状态必须为0或1，已保持原有值: " ++ "1" ++ "<br>")
      ∈ (handlePost ⟨"10.0.0.1", "tok", "on", "", "", "8080", "1"⟩
          ⟨"192.168.0.1", "abc", "on", "5", "", ""⟩ (.postError "refused")).bodyWrites ∧
    (handlePost ⟨"10.0.0.1", "tok", "on", "", "", "8080", "1"⟩
        ⟨"192.168.0.1", "abc", "on", "5", "", ""⟩ (.postError "refused")).requests.length = 1 :=
  c2_invalid_dmz_retained ⟨"10.0.0.1", "tok", "on", "", "", "8080", "1"⟩
    ⟨"192.168.0.1", "abc", "on", "5", "", ""⟩ (.postError "refused")
    (by decide) (by decide)

/-- Claim C3: on every POST, a successful Router Client call makes the
handler issue an HTTP 303 redirect to /success, and a failed call makes it
write a plain-text message "操作失败: " followed by the Router Client
response text into the body, with no redirect issued. -/
theorem c3_redirect_or_failure_text (c : Config) (f : Form) (net : NetOutcome) :
    (sendOk net = true → (handlePost c f net).redirect = some ("/success", 303)) ∧
    (sendOk net = false →
      (handlePost c f net).redirect = none ∧
      ("操作失败: " ++ (sendRequest (handlePost c f net).config net).message)
        ∈ (handlePost c f net).bodyWrites) := by
  refine ⟨?_, fun h => ⟨?_, ?_⟩⟩
  · intro h
    rw [handlePost_redirect, h]
    rfl
  · rw [handlePost_redirect, h]
    rfl
  · rw [handlePost_config]
    simp only [handlePost, sendRequest_ok_eq_sendOk, h]
    cases net <;> simp [sendRequest]

theorem c3_redirect_or_failure_text_witness :
    (handlePost initConfig ⟨"192.168.0.1", "abc", "on", "1", "", ""⟩
        (.response 200 "ok-body")).redirect = some ("/success", 303) ∧
    (handlePost initConfig ⟨"192.168.0.1", "abc", "on", "1", "", ""⟩
        (.postError "unreachable")).redirect = none :=
  ⟨(c3_redirect_or_failure_text initConfig ⟨"192.168.0.1", "abc", "on", "1", "", ""⟩
      (.response 200 "ok-body")).1 rfl,
   ((c3_redirect_or_failure_text initConfig ⟨"192.168.0.1", "abc", "on", "1", "", ""⟩
      (.postError "unreachable")).2 rfl).1⟩

/-- Claim C10: when the Router Client call fails, the field updates applied
to Settings before the call are not rolled back — the resulting config holds
the submitted values (dmz_enable only when valid, else the prior value), no
redirect is issued, and rendering the form afterwards embeds exactly those
stored values in the value attributes. -/
theorem c10_failure_keeps_updates (c : Config) (f : Form) (net : NetOutcome)
    (hfail : sendOk net = false) :
    (handlePost c f net).config =
      ⟨f.router_ip, f.stok, goToLower f.ipv6_firewall_enable, f.dmz_dest_ip,
       f.dmz_dest_ip6, c.serverPort,
       if f.dmz_enable = "0" || f.dmz_enable = "1" then f.dmz_enable else c.dmzEnable⟩ ∧
    (handlePost c f net).redirect = none ∧
    (∃ p₁ p₂ p₃ p₄ p₅ p₆ p₇,
      renderForm (handlePost c f net).config =
        p₁ ++ f.router_ip ++ p₂ ++ f.stok ++ p₃ ++ goToLower f.ipv6_firewall_enable
          ++ p₄ ++ (handlePost c f net).config.dmzEnable ++ p₅ ++ f.dmz_dest_ip
          ++ p₆ ++ f.dmz_dest_ip6 ++ p₇) := by
  refine ⟨handlePost_config c f net, ?_, ?_⟩
  · rw [handlePost_redirect, hfail]
    rfl
  · refine ⟨"<html>\n\t\t<body>\n\t\t\t<form method=\"post\">\n\t\t\t\t<label>Router IP:</label><br>\n\t\t\t\t<input type=\"text\" name=\"router_ip\" placeholder=\"例如: 192.168.0.1\" value=\"",
      "\"><br>\n\t\t\t\t\n\t\t\t\t<label>Stok:</label><br>\n\t\t\t\t<input type=\"text\" name=\"stok\" placeholder=\"路由器认证令牌\" value=\"",
      "\"><br>\n\t\t\t\t\n\t\t\t\t<label>IPv6 Firewall Enable (on=开启,off=关闭):</label><br>\n\t\t\t\t<input type=\"text\" name=\"ipv6_firewall_enable\" placeholder=\"on或off\" value=\"",
      "\"><br>\n\t\t\t\t\n\t\t\t\t<label>DMZ 启用状态 (1=启用,0=关闭):</label><br>\n\t\t\t\t<input type=\"text\" name=\"dmz_enable\" placeholder=\"0或1\" value=\"",
      "\"><br>\n\t\t\t\t\n\t\t\t\t<label>DMZ Destination IP (IPv4):</label><br>\n\t\t\t\t<input type=\"text\" name=\"dmz_dest_ip\" placeholder=\"例如: 192.168.0.102\" value=\"",
      "\"><br>\n\t\t\t\t\n\t\t\t\t<label>DMZ Destination IPv6:</label><br>\n\t\t\t\t<input type=\"text\" name=\"dmz_dest_ip6\" placeholder=\"例如: 240e:370:xx\" value=\"",
      "\"><br>\n\t\t\t\t\n\t\t\t\t<input type=\"submit\" value=\"提交\">\n\t\t\t\t</form>\n\t\t\t</body>\n\t\t</html>", ?_⟩
    rw [handlePost_config]
    rfl

theorem c10_failure_keeps_updates_witness :
    (handlePost ⟨"", "", "", "", "", "8080", "1"⟩
        ⟨"192.168.0.1", "abc", "ON", "1", "192.168.0.2", "240e::1"⟩
        (.postError "unreachable")).redirect = none :=
  ((c10_failure_keeps_updates ⟨"", "", "", "", "", "8080", "1"⟩
      ⟨"192.168.0.1", "abc", "ON", "1", "192.168.0.2", "240e::1"⟩
      (.postError "unreachable") rfl).2).1

theorem handlePost_preserves_dmzValid (c : Config) (f : Form) (net : NetOutcome)
    (h : dmzValid c) : dmzValid (handlePost c f net).config := by
  rw [dmzValid, handlePost_config]
  cases hd : (f.dmz_enable = "0" || f.dmz_enable = "1") with
  | true =>
      simp only [hd, if_true]
      simpa using hd
  | false =>
      simp only [hd, Bool.false_eq_true, if_false]
      exact h

theorem applySubmits_preserves_dmzValid (subs : List (Form × NetOutcome)) :
    ∀ c, dmzValid c → dmzValid (applySubmits c subs) := by
  induction subs with
  | nil => exact fun _ h => h
  | cons fn rest ih =>
      intro c h
      exact ih _ (handlePost_preserves_dmzValid c fn.1 fn.2 h)

/-- Claim C1 (counterexample to the claim as stated): config load of a
well-formed config file whose dmz_enable key holds "2" completes the
config-load update path with the DMZ flag equal to "2", which is neither
"0" nor "1" — the load path stores the parsed value without validation. -/
theorem c1_counterexample :
    (readConfig initConfig
        (.parsed ⟨none, none, none, none, none, none, some "2"⟩)).1.dmzEnable = "2" ∧
    ¬ dmzValid (readConfig initConfig
        (.parsed ⟨none, none, none, none, none, none, some "2"⟩)).1 :=
  ⟨rfl, by decide⟩

/-- Claim C1 (amended): provided the config-load source does not decode a
dmz_enable value outside 0/1 into the struct — the file is absent,
unreadable or a syntax error, or whatever fields json.Unmarshal decoded
(on the error-free path or before a type error) carry no dmz_enable or one
equal to "0"/"1" — the DMZ flag is exactly "0" or "1" after the load and
after every form submission in any subsequent sequence of submissions: the
form-submit path always preserves the invariant (quantifying over all
submission lists covers every intermediate point of a longer sequence). -/
theorem c1_dmz_invariant (fr : FileRead) (subs : List (Form × NetOutcome))
    (hfr : ∀ j v, decodedFields fr = some j → j.dmz_enable = some v → v = "0" ∨ v = "1") :
    dmzValid (applySubmits (readConfig initConfig fr).1 subs) := by
  apply applySubmits_preserves_dmzValid
  cases fr with
  | openError e => exact Or.inr rfl
  | readError e => exact Or.inr rfl
  | syntaxError e => exact Or.inr rfl
  | typeError j e =>
      rw [dmzValid]
      cases hj : j.dmz_enable with
      | none => simp [readConfig, unmarshalInto, hj]
      | some v =>
          simp only [readConfig, unmarshalInto, hj, Option.getD_some]
          exact hfr j v rfl hj
  | parsed j =>
      rw [dmzValid]
      cases hj : j.dmz_enable with
      | none => simp [readConfig, unmarshalInto, hj]
      | some v =>
          simp only [readConfig, unmarshalInto, hj, Option.getD_some]
          exact hfr j v rfl hj

theorem c1_dmz_invariant_witness :
    dmzValid (applySubmits
      (readConfig initConfig (.openError "missing file")).1
      [(⟨"192.168.0.1", "abc", "on", "7", "", ""⟩, .postError "refused")]) :=
  c1_dmz_invariant (.openError "missing file")
    [(⟨"192.168.0.1", "abc", "on", "7", "", ""⟩, .postError "refused")]
    (fun _ _ h => nomatch h)

/-- Claim C6 (counterexample to the claim as stated): a well-formed config
file carrying a wrong-typed router_ip and a well-typed stok fails the load
(an error is returned) yet leaves Stok = "abc" non-empty, because
json.Unmarshal decodes the well-typed fields before reporting the type
error — so not every other field is empty on a malformed-structure failure. -/
theorem c6_counterexample :
    (readConfig initConfig
        (.typeError ⟨none, some "abc", none, none, none, none, none⟩
          "json: cannot unmarshal number into Go struct field Config.router_ip of type string")).2.isSome
      = true ∧
    (readConfig initConfig
        (.typeError ⟨none, some "abc", none, none, none, none, none⟩
          "json: cannot unmarshal number into Go struct field Config.router_ip of type string")).1.stok
      = "abc" :=
  ⟨rfl, rfl⟩

/-- Claim C6 (amended): load failures from a missing file, an unreadable
file, or malformed JSON text yield exactly the Settings with server port
"8080", DMZ enable "1" and every other field empty, plus the underlying
error, and the server address the caller proceeds to bind is ":8080"; a
failure from a wrong-typed field in well-formed JSON also returns the error
but retains the well-typed decoded fields on top of the two pre-applied
defaults; on both decode paths (with or without a type error) the two
defaults are pre-applied before parsing, so a file not supplying
server_port or dmz_enable still yields "8080" and "1". -/
theorem c6_load_behavior :
    (∀ e, readConfig initConfig (.openError e)
        = (⟨"", "", "", "", "", "8080", "1"⟩, some e)) ∧
    (∀ e, readConfig initConfig (.readError e)
        = (⟨"", "", "", "", "", "8080", "1"⟩, some e)) ∧
    (∀ e, readConfig initConfig (.syntaxError e)
        = (⟨"", "", "", "", "", "8080", "1"⟩, some e)) ∧
    (∀ e, serverAddr (readConfig initConfig (.openError e)).1 = ":8080") ∧
    (∀ c j e, readConfig c (.typeError j e)
        = (unmarshalInto { c with serverPort := "8080", dmzEnable := "1" } j, some e)) ∧
    (∀ c j e, j.server_port = none → (readConfig c (.typeError j e)).1.serverPort = "8080") ∧
    (∀ c j e, j.dmz_enable = none → (readConfig c (.typeError j e)).1.dmzEnable = "1") ∧
    (∀ c j, j.server_port = none → (readConfig c (.parsed j)).1.serverPort = "8080") ∧
    (∀ c j, j.dmz_enable = none → (readConfig c (.parsed j)).1.dmzEnable = "1") := by
  refine ⟨fun e => rfl, fun e => rfl, fun e => rfl, fun e => rfl, fun c j e => rfl,
    ?_, ?_, ?_, ?_⟩
  · intro c j e h
    simp [readConfig, unmarshalInto, h]
  · intro c j e h
    simp [readConfig, unmarshalInto, h]
  · intro c j h
    simp [readConfig, unmarshalInto, h]
  · intro c j h
    simp [readConfig, unmarshalInto, h]

theorem c6_load_behavior_witness :
    readConfig initConfig (.openError "open config.json: no such file")
      = (⟨"", "", "", "", "", "8080", "1"⟩, some "open config.json: no such file") ∧
    (readConfig initConfig
        (.parsed ⟨some "192.168.0.1", none, none, none, none, none, none⟩)).1.serverPort
      = "8080" ∧
    (readConfig initConfig
        (.typeError ⟨none, some "abc", none, none, none, none, none⟩
          "wrong type")).1.dmzEnable
      = "1" :=
  ⟨c6_load_behavior.1 "open config.json: no such file",
   c6_load_behavior.2.2.2.2.2.2.2.1 initConfig
     ⟨some "192.168.0.1", none, none, none, none, none, none⟩ rfl,
   c6_load_behavior.2.2.2.2.2.2.1 initConfig
     ⟨none, some "abc", none, none, none, none, none⟩ "wrong type" rfl⟩

/-- Claim C8: at every point of every sequence of supervisor operations at
most one child-process handle is tracked; a launch's event trace is exactly
the teardown events followed by the spawn event (so any teardown precedes
the recording of the new process); and when a process with positive pid was
tracked, the teardown signals it (interrupt then kill lead the trace) and
clears the tracked handle and group id before the new process is recorded. -/
theorem c8_supervisor_single_handle (isWindows : Bool) (s : SupState) (o : StartOutcome) :
    (∀ start ops, trackedCount (supRun start ops) ≤ 1) ∧
    ((safeExecCommand isWindows s o).2.1
      = (cleanupProcesses isWindows s).2
          ++ (match o with
              | .startError _ => ([] : List SupEvent)
              | .started pid => [SupEvent.spawn pid])) ∧
    (∀ pid, s.childProcess = some pid → 0 < pid →
      (cleanupProcesses isWindows s).1 = ⟨none, 0⟩ ∧
      ∃ rest, (safeExecCommand isWindows s o).2.1
          = SupEvent.signalInterrupt pid :: SupEvent.signalKill pid :: rest) := by
  refine ⟨?_, ?_, ?_⟩
  · intro start ops
    cases h : (supRun start ops).childProcess <;> simp [trackedCount, h]
  · cases o <;> simp [safeExecCommand]
  · intro pid hp hpos
    constructor
    · simp [cleanupProcesses, hp, hpos]
    · cases o with
      | startError e =>
          exact ⟨(if isWindows && decide (0 < s.processGroup)
                  then [SupEvent.terminateGroup s.processGroup] else []),
            by simp [safeExecCommand, cleanupProcesses, hp, hpos]⟩
      | started pid2 =>
          exact ⟨(if isWindows && decide (0 < s.processGroup)
                  then [SupEvent.terminateGroup s.processGroup] else []) ++ [SupEvent.spawn pid2],
            by simp [safeExecCommand, cleanupProcesses, hp, hpos]⟩

theorem c8_supervisor_single_handle_witness :
    trackedCount (supRun ⟨some 5, 5⟩ [SupOp.launch true (.started 9)]) ≤ 1 ∧
    (cleanupProcesses true ⟨some 5, 5⟩).1 = ⟨none, 0⟩ ∧
    ∃ rest, (safeExecCommand true ⟨some 5, 5⟩ (.started 9)).2.1
        = SupEvent.signalInterrupt 5 :: SupEvent.signalKill 5 :: rest :=
  ⟨(c8_supervisor_single_handle true ⟨some 5, 5⟩ (.started 9)).1 ⟨some 5, 5⟩
      [SupOp.launch true (.started 9)],
   ((c8_supervisor_single_handle true ⟨some 5, 5⟩ (.started 9)).2.2 5 rfl (by decide)).1,
   ((c8_supervisor_single_handle true ⟨some 5, 5⟩ (.started 9)).2.2 5 rfl (by decide)).2⟩

/-- Claim C9 (evaluation at the failing input): on the Enter-key shutdown
path `main` closes the shutdown channel, sleeps 500 ms and calls os.Exit(0),
which terminates the process immediately without running the deferred
cleanup; with a child process (pid 7) still tracked, the supervisor state is
unchanged at exit, the exit code is 0, and no teardown step occurs in the
shutdown trace — contradicting the claimed "no tracked child remaining". -/
theorem c9_exit_skips_teardown :
    mainShutdown ⟨some 7, 7⟩ = (⟨some 7, 7⟩, 0) ∧
    trackedCount (mainShutdown ⟨some 7, 7⟩).1 = 1 ∧
    MainEvent.runCleanup ∉ mainShutdownEvents ∧
    mainShutdownEvents = [.closeSignal, .sleepMs 500, .exitProcess 0] :=
  ⟨rfl, rfl, by decide, rfl⟩

end TPLink
